import Mathlib

/-!
Shallow embedding of the speedometer repository's Playwright verification
scripts (src/verify_fix.py, src/verify_landscape.py,
src/verification/{repro_bug,screenshot_script,verify_gap,verify_popover,verify_stale}.py)
and of the small pieces of the web application under test that the spec
describes.  Pure decision logic of the scripts (message selection, error
handling shape, sampling schedules) is transcribed directly from the Python
source; behaviour of the application itself, whose code is not part of the
repository, is modelled from the spec and marked as such in doc comments.
-/

namespace Speedometer

/-- Observable side effect of a verification script: a console print or a
screenshot file written to disk. -/
inductive Action where
  | print (msg : String)
  | screenshot (path : String)
  deriving DecidableEq, Repr

/-- Heads of two unequal characters make two strings unequal: if `a` starts
with `c`, `t` starts with `c'` and `c ≠ c'`, then `a ++ b ≠ t`. -/
theorem append_ne_of_head_ne (a b t : String) (c c' : Char)
    (ha : a.data.head? = some c) (ht : t.data.head? = some c') (hcc : c ≠ c') :
    a ++ b ≠ t := by
  intro h
  apply hcc
  have hd : (a ++ b).data = t.data := by rw [h]
  rw [String.data_append] at hd
  cases hA : a.data with
  | nil => rw [hA] at ha; simp at ha
  | cons x xs =>
    cases hT : t.data with
    | nil => rw [hT] at ht; simp at ht
    | cons y ys =>
      rw [hA, hT] at hd
      rw [hA] at ha
      rw [hT] at ht
      simp at ha ht
      simp at hd
      rw [← ha, ← ht]
      exact hd.1

/-! ## verify_gap (src/verification/verify_gap.py) -/

/-- The verdict message verify_gap prints for the computed CSS `gap` string of
`.bottom-right-controls` (verify_gap.py lines 96–99):
`SUCCESS: Gap is 20px` when the gap equals `"20px"`, otherwise
`FAILURE: Gap is {gap}`. -/
def gapVerdict (gap : String) : String :=
  if gap = "20px" then "SUCCESS: Gap is 20px" else "FAILURE: Gap is " ++ gap

/-- The tail of verify_gap's try body, from the `.unsupported` visibility check
onward (verify_gap.py lines 82–99).  When `.unsupported` is visible the script
prints `STILL UNSUPPORTED`, saves a debug screenshot and returns early.
Otherwise it awaits `expect(controls).to_be_visible()` (modelled as raising
when the controls are not visible), evaluates the gap, prints it, screenshots
`.bottom-bar` and prints the gap verdict.  The result is the pair of the
actions performed and the error raised, if any. -/
def verifyGapBody (unsupportedVisible controlsVisible : Bool) (gap : String) :
    List Action × Option String :=
  if unsupportedVisible then
    ([Action.print "STILL UNSUPPORTED",
      Action.screenshot "verification/unsupported_debug_2.png"], none)
  else if !controlsVisible then
    ([], some "Locator expected to be visible")
  else
    ([Action.print ("Computed gap: " ++ gap),
      Action.screenshot "verification/bottom_bar_gap.png",
      Action.print (gapVerdict gap)], none)

/-! ## verify_fix (src/verify_fix.py) -/

/-- The meta-tag verdict of verify_fix (verify_fix.py lines 123–126): the
retrieved `content` attribute of
`meta[name='apple-mobile-web-app-status-bar-style']` (`none` when the tag is
present but has no `content` attribute, since Python's `None` compares unequal
to any string) is compared against `"black-translucent"`. -/
def metaVerdict (metaContent : Option String) : String :=
  if metaContent = some "black-translucent" then "PASS: Meta tag correct"
  else "FAIL: Meta tag incorrect"

/-- Playwright's `page.get_attribute(selector, name)`: it auto-waits for the
selector, raising a `TimeoutError` when no element matches; when the element
exists it returns the attribute's value, `None` when the attribute is absent. -/
def getAttribute (elementPresent : Bool) (attrValue : Option String) :
    Except String (Option String) :=
  if elementPresent then Except.ok attrValue
  else Except.error "Timeout 30000ms exceeded."

/-- How a Python f-string renders an `Optional[str]`: the string itself, or
`None`. -/
def pyStr (v : Option String) : String :=
  match v with
  | some s => s
  | none => "None"

/-- The meta-tag portion of verify_fix's try body together with the script's
except clause (verify_fix.py lines 115–133): `get_attribute` on the meta tag
either yields the content value — which the script prints and then compares,
printing the PASS or FAIL verdict — or, when the tag is absent, raises out of
the try, upon which the except clause prints the error, saves the failure
screenshot and re-raises (`raise e`).  The result pairs the actions performed
with the error propagated out of the script, if any. -/
def metaCheckRun (tagPresent : Bool) (content : Option String) :
    List Action × Option String :=
  match getAttribute tagPresent content with
  | Except.ok c =>
      ([Action.print ("Meta tag: " ++ pyStr c), Action.print (metaVerdict c)], none)
  | Except.error e =>
      ([Action.print ("Error: " ++ e),
        Action.screenshot "/home/jules/verification/error_retry.png"], some e)

/-- Whether a run of the meta-tag check printed the FAIL verdict. -/
def printsMetaFail (tagPresent : Bool) (content : Option String) : Bool :=
  (metaCheckRun tagPresent content).1.any
    (fun a => decide (a = Action.print "FAIL: Meta tag incorrect"))

/-- The JavaScript snippet verify_fix evaluates to read the `::backdrop`
backdrop filter (verify_fix.py lines 102–111): when the popover element is
absent it returns `"ELEMENT_NOT_FOUND"`; otherwise it returns
`style.backdropFilter || style.webkitBackdropFilter || 'none'`, where the
JavaScript `||` falls through on the empty string. -/
def backdropJsResult (popoverPresent : Bool) (bdFilter webkitBdFilter : String) :
    String :=
  if popoverPresent = false then "ELEMENT_NOT_FOUND"
  else if bdFilter ≠ "" then bdFilter
  else if webkitBdFilter ≠ "" then webkitBdFilter
  else "none"

/-- The actions verify_fix performs on the backdrop-filter value it read
(verify_fix.py lines 118–121): a `FAIL: Backdrop filter found: {v}` message is
printed only when the value is neither `'none'` nor `"ELEMENT_NOT_FOUND"` nor
the empty string. -/
def backdropActions (backdropFilter : String) : List Action :=
  if backdropFilter ≠ "none" ∧ backdropFilter ≠ "ELEMENT_NOT_FOUND" then
    if backdropFilter ≠ "" then
      [Action.print ("FAIL: Backdrop filter found: " ++ backdropFilter)]
    else []
  else []

/-! ## repro_bug (src/verification/repro_bug.py) -/

/-- The verdict repro_bug prints about the inline `--exit-x` custom property of
`#vibe-warning` after clicking `.info-btn` (repro_bug.py lines 45–48): Python
`if not exit_x_after` is truthiness on a string, so `FAIL` is printed exactly
on the empty string and `SUCCESS` otherwise. -/
def exitXVerdict (exitXAfter : String) : String :=
  if exitXAfter = "" then "FAIL: --exit-x not set after click!"
  else "SUCCESS: --exit-x set after click."

/-! ## verify_stale (src/verification/verify_stale.py) -/

/-- Speed, in m/s, reported by the geolocation mock that verify_stale installs
(verify_stale.py: `speed: 20, // 20 m/s`). -/
def mockedSpeedMps : ℚ := 20

/-- The digits the script waits for in the `#speed` element
(verify_stale.py: `page.wait_for_selector("#speed:has-text('45')")`). -/
def expectedSpeedText : String := "45"

/-- Modelled from the spec: the application converts the raw geolocation speed
in m/s to the displayed unit (mph) and rounds to the nearest integer; the m/s
to mph factor 2.237 is the one the script's comment uses (`20 * 2.237 = 44.7
-> 45`).  The application source is not part of the repository. -/
def msToMphDisplayed (mps : ℚ) : ℤ := round (mps * (2237 / 1000))

/-- Milliseconds verify_stale sleeps before the first `#warning` sample
(verify_stale.py: `time.sleep(11)`). -/
def staleSleep1 : ℕ := 11000

/-- Milliseconds verify_stale sleeps after each `Date.now` override before
resampling (verify_stale.py: `time.sleep(1.5)`, twice). -/
def staleSleep2 : ℕ := 1500

/-- Offset added to the real clock by the first `Date.now` override
(verify_stale.py: `Date.now = () => window._originalNow() + 65000`). -/
def staleOffset2 : ℕ := 65000

/-- Offset added to the real clock by the second `Date.now` override
(verify_stale.py: `() => window._originalNow() + (2 * 60 * 60 * 1000) + 1000`). -/
def staleOffset3 : ℕ := 2 * 60 * 60 * 1000 + 1000

/-- Simulated elapsed time, in ms since the last geolocation update, seen by
the page's staleness check at each of verify_stale's three `#warning` samples.
`_originalNow` saves the real clock, so each override adds its offset to the
real elapsed time; `d1 d2 d3` are the nonnegative real-time overheads beyond
the scripted sleeps (selector waits, Playwright round trips) accumulated
before each sample. -/
def simulatedElapsed (d1 d2 d3 : ℕ) : Fin 3 → ℕ
  | 0 => staleSleep1 + d1
  | 1 => staleSleep1 + d1 + staleSleep2 + d2 + staleOffset2
  | 2 => staleSleep1 + d1 + staleSleep2 + d2 + staleSleep2 + d3 + staleOffset3

/-- Escalation buckets of the staleness watchdog's displayed message. -/
inductive StaleBucket where
  | seconds
  | minutes
  | hours
  deriving DecidableEq, Repr

/-- Modelled from the spec: the staleness watchdog escalates its message from
seconds to minutes to hours as the elapsed time since the last update grows,
with the usual unit boundaries (one minute, one hour).  The application source
is not part of the repository. -/
def staleBucket (elapsedMs : ℕ) : StaleBucket :=
  if elapsedMs < 60 * 1000 then StaleBucket.seconds
  else if elapsedMs < 60 * 60 * 1000 then StaleBucket.minutes
  else StaleBucket.hours

/-! ## Popover first-run state (modelled from the spec)

The application's onboarding popover logic (the `#vibe-warning` element, its
persisted "seen" flag, and the `--exit-x` exit-animation origin) lives in the
web application, whose source is not part of the repository; the scripts only
observe it.  The model below follows the spec's description. -/

/-- Modelled from the spec: the application state the popover scripts observe,
a persisted boolean "seen" flag and the popover's visibility. -/
structure AppState where
  seen : Bool
  popoverVisible : Bool
  deriving DecidableEq, Repr

/-- The browser-level events the repro script drives the application through. -/
inductive AppEvent where
  | load
  | dismiss
  | clearStorage
  deriving DecidableEq, Repr

/-- Modelled from the spec: a load auto-shows the popover exactly when the
persisted seen flag is unset; dismissing via the `Got it` button hides the
popover and persists the flag; clearing storage resets the flag. -/
def appStep : AppState → AppEvent → AppState
  | s, AppEvent.load => { s with popoverVisible := !s.seen }
  | _, AppEvent.dismiss => { seen := true, popoverVisible := false }
  | s, AppEvent.clearStorage => { s with seen := false }

/-- Runs a sequence of events through the popover model. -/
def appRun (s : AppState) (evs : List AppEvent) : AppState :=
  evs.foldl appStep s

/-- Modelled from the spec: clicking the info button computes the
exit-animation origin from the click coordinates and writes it into the
`--exit-x` CSS custom property as a pixel length.  The application source is
not part of the repository. -/
def exitXAfterClick (clickX : ℤ) : String := toString clickX ++ "px"

/-! ## Error-handling shape of the scripts (C4) -/

/-- The seven Python scripts of the repository. -/
inductive Script where
  | verify_fix
  | verify_landscape
  | repro_bug
  | screenshot_script
  | verify_gap
  | verify_popover
  | verify_stale
  deriving DecidableEq, Repr

/-- What a script's `except` clause does with a caught exception: whether it
prints the error, the failure-screenshot path it saves if any, and whether it
re-raises the exception afterwards. -/
structure ExceptClause where
  printsError : Bool
  screenshotPath : Option String
  reraises : Bool
  deriving DecidableEq, Repr

/-- The `except` clause of each script, transcribed from the source; `none`
means the script has no `except` clause at all, so exceptions propagate.
verify_fix prints, screenshots and then `raise e`; verify_gap and
verify_popover print and screenshot; repro_bug only prints; verify_stale has
only `try/finally`, and verify_landscape and screenshot_script have no `try`
at all. -/
def exceptClause : Script → Option ExceptClause
  | Script.verify_fix =>
      some ⟨true, some "/home/jules/verification/error_retry.png", true⟩
  | Script.verify_landscape => none
  | Script.repro_bug => some ⟨true, none, false⟩
  | Script.screenshot_script => none
  | Script.verify_gap => some ⟨true, some "verification/error.png", false⟩
  | Script.verify_popover => some ⟨true, some "verification/error.png", false⟩
  | Script.verify_stale => none

/-- Whether a script, on a navigation or timeout error in its body, catches
it, writes a failure screenshot, prints debug state, and does not let the
error propagate — the property C4 asserts of every script. -/
def handlesErrorWithDiagnostics (s : Script) : Bool :=
  match exceptClause s with
  | none => false
  | some c => c.printsError && c.screenshotPath.isSome && !c.reraises

/-! ## Browser cleanup shape of the scripts (C8) -/

/-- The `try/finally` layout of a script around its browser: whether any
statements sit between `browser.launch()` and the `try` (context and page
creation, init-script registration — statements that can raise), and whether a
`finally` clause calls `browser.close()`. -/
structure CleanupShape where
  stmtsBeforeTry : Bool
  closesInFinally : Bool
  deriving DecidableEq, Repr

/-- The cleanup layout of each script, transcribed from the source.  In every
script some statements (context and page creation; for verify_fix, verify_gap
and verify_stale also init-script registration, and for verify_stale a console
handler) stand between `browser.launch()` and the `try`.  The five scripts C8
names close the browser in a `finally`; verify_landscape and
screenshot_script close it by a plain final statement with no `try` at all. -/
def cleanupShape : Script → CleanupShape
  | Script.verify_fix => ⟨true, true⟩
  | Script.verify_landscape => ⟨true, false⟩
  | Script.repro_bug => ⟨true, true⟩
  | Script.screenshot_script => ⟨true, false⟩
  | Script.verify_gap => ⟨true, true⟩
  | Script.verify_popover => ⟨true, true⟩
  | Script.verify_stale => ⟨true, true⟩

/-- The execution paths of a script relevant to browser cleanup: normal
completion, an exception raised by a statement between `browser.launch()` and
the `try`, or an exception raised inside the `try` body. -/
inductive RunPath where
  | normal
  | raiseBeforeTry
  | raiseInTry
  deriving DecidableEq, Repr

/-- Whether the launched browser gets closed on a given execution path.  The
`finally` runs on normal completion and on an exception inside the `try` body;
an exception before the `try` never reaches it. -/
def browserClosed (s : Script) (p : RunPath) : Bool :=
  match p with
  | RunPath.normal => (cleanupShape s).closesInFinally
  | RunPath.raiseBeforeTry => false
  | RunPath.raiseInTry => (cleanupShape s).closesInFinally

/-! ## Helper lemmas -/

/-- The gap verdict is never the `.unsupported` diagnostic message. -/
theorem gapVerdict_ne_still (g : String) : gapVerdict g ≠ "STILL UNSUPPORTED" := by
  unfold gapVerdict
  by_cases h : g = "20px"
  · rw [if_pos h]; decide
  · rw [if_neg h]
    exact append_ne_of_head_ne _ _ _ 'F' 'S' rfl rfl (by decide)

/-! ## Claim theorems -/

/-- Claim C1: verify_stale mocks the geolocation speed at exactly 20 m/s and
waits for the `#speed` element to display `45`; the digits it waits for equal
the raw 20 m/s converted to mph (factor 2.237) and rounded to the nearest
integer, since `round (20 * 2.237) = round 44.74 = 45`. -/
theorem C1_speed_display :
    mockedSpeedMps = 20 ∧
    msToMphDisplayed mockedSpeedMps = 45 ∧
    toString (msToMphDisplayed mockedSpeedMps) = expectedSpeedText := by
  have h45 : msToMphDisplayed mockedSpeedMps = 45 := by
    rw [msToMphDisplayed, mockedSpeedMps, round_eq]
    norm_num
  exact ⟨rfl, h45, by rw [h45]; rfl⟩

/-- Claim C5: verify_gap prints `SUCCESS: Gap is 20px` exactly when the
computed gap of `.bottom-right-controls` is the string `"20px"`; for every
other value it prints a FAILURE message that carries the value. -/
theorem C5_gap_verdict (gap : String) :
    (gapVerdict gap = "SUCCESS: Gap is 20px" ↔ gap = "20px") ∧
    (gap ≠ "20px" →
      gapVerdict gap = "FAILURE: Gap is " ++ gap ∧
      List.IsSuffix gap.data (gapVerdict gap).data) := by
  by_cases h : gap = "20px"
  · subst h
    exact ⟨by simp [gapVerdict], fun hne => absurd rfl hne⟩
  · have hfail : gapVerdict gap = "FAILURE: Gap is " ++ gap := by
      unfold gapVerdict; rw [if_neg h]
    refine ⟨⟨fun hs => ?_, fun hg => absurd hg h⟩, fun _ => ⟨hfail, ?_⟩⟩
    · rw [hfail] at hs
      exact absurd hs (append_ne_of_head_ne _ _ _ 'F' 'S' rfl rfl (by decide))
    · rw [hfail, String.data_append]
      exact ⟨"FAILURE: Gap is ".data, rfl⟩

/-- Claim C5 witness: at the concrete gap `"0px"` the FAILURE message carrying
the value is printed. -/
theorem C5_gap_verdict_witness : gapVerdict "0px" = "FAILURE: Gap is 0px" :=
  ((C5_gap_verdict "0px").2 (by decide)).1

/-- Claim C7 fails as stated on a missing meta tag: `get_attribute` auto-waits
and raises a `TimeoutError` when no element matches, so verify_fix's except
clause prints the error, saves the failure screenshot and re-raises — the FAIL
verdict is never printed on that run. -/
theorem C7_counterexample :
    printsMetaFail false none = false ∧
    metaCheckRun false none =
      ([Action.print "Error: Timeout 30000ms exceeded.",
        Action.screenshot "/home/jules/verification/error_retry.png"],
       some "Timeout 30000ms exceeded.") :=
  ⟨rfl, rfl⟩

/-- Claim C7 (amended): when the meta tag is present, verify_fix prints
`PASS: Meta tag correct` exactly when its retrieved `content` is
`black-translucent`, and `FAIL: Meta tag incorrect` for every other retrieved
value, `None` (a present tag with no `content` attribute) included; when the
tag is absent, `get_attribute`'s auto-wait raises, and the script prints the
error, screenshots and re-raises without printing either verdict. -/
theorem C7_meta_check (c : Option String) :
    (metaVerdict c = "PASS: Meta tag correct" ↔ c = some "black-translucent") ∧
    (c ≠ some "black-translucent" → metaVerdict c = "FAIL: Meta tag incorrect") ∧
    (metaCheckRun true c).1 =
      [Action.print ("Meta tag: " ++ pyStr c), Action.print (metaVerdict c)] ∧
    (metaCheckRun true c).2 = none ∧
    printsMetaFail false c = false ∧
    (metaCheckRun false c).2 = some "Timeout 30000ms exceeded." := by
  refine ⟨?_, ?_, rfl, rfl, rfl, rfl⟩ <;>
    by_cases h : c = some "black-translucent" <;> simp [metaVerdict, h]

/-- Claim C7 (amended) witness: a present tag with content `default` gets the
FAIL verdict printed by the run, while an absent tag propagates the timeout
error with no verdict. -/
theorem C7_meta_check_witness :
    metaVerdict (some "default") = "FAIL: Meta tag incorrect" ∧
    (metaCheckRun true (some "default")).1 =
      [Action.print "Meta tag: default",
       Action.print "FAIL: Meta tag incorrect"] ∧
    printsMetaFail false (some "default") = false :=
  ⟨(C7_meta_check (some "default")).2.1 (by decide),
   by
     have h := (C7_meta_check (some "default")).2.2.1
     rw [h]
     rfl,
   (C7_meta_check (some "default")).2.2.2.2.1⟩

/-- Claim C9: verify_fix prints the backdrop failure message exactly when the
value read back is none of `'none'`, `"ELEMENT_NOT_FOUND"` and `""`; in
particular an empty string passes, and an absent popover element makes the
evaluated snippet return `"ELEMENT_NOT_FOUND"`, which also passes. -/
theorem C9_backdrop_check (v bd wbd : String) :
    (backdropActions v = [Action.print ("FAIL: Backdrop filter found: " ++ v)] ↔
      (v ≠ "none" ∧ v ≠ "ELEMENT_NOT_FOUND" ∧ v ≠ "")) ∧
    ((v = "none" ∨ v = "ELEMENT_NOT_FOUND" ∨ v = "") → backdropActions v = []) ∧
    backdropJsResult false bd wbd = "ELEMENT_NOT_FOUND" ∧
    backdropActions (backdropJsResult false bd wbd) = [] := by
  unfold backdropActions backdropJsResult
  split_ifs with h1 h2 <;> simp_all

/-- Claim C9 witness: a concrete real filter value triggers the failure
message, and an absent popover triggers none. -/
theorem C9_backdrop_check_witness :
    backdropActions "blur(4px)" =
      [Action.print "FAIL: Backdrop filter found: blur(4px)"] ∧
    backdropActions (backdropJsResult false "blur(4px)" "") = [] :=
  ⟨(C9_backdrop_check "blur(4px)" "" "").1.mpr (by decide),
   (C9_backdrop_check "blur(4px)" "blur(4px)" "").2.2.2⟩

/-- Claim C10: when `.unsupported` is visible, verify_gap performs exactly the
diagnostic print and the debug screenshot and returns; no bottom-bar
screenshot, no computed-gap print and no gap verdict can occur on that path. -/
theorem C10_unsupported_early_return (controlsVisible : Bool) (gap : String) :
    verifyGapBody true controlsVisible gap =
      ([Action.print "STILL UNSUPPORTED",
        Action.screenshot "verification/unsupported_debug_2.png"], none) ∧
    Action.screenshot "verification/bottom_bar_gap.png" ∉
      (verifyGapBody true controlsVisible gap).1 ∧
    (∀ g : String,
      Action.print (gapVerdict g) ∉ (verifyGapBody true controlsVisible gap).1) ∧
    (∀ g : String,
      Action.print ("Computed gap: " ++ g) ∉ (verifyGapBody true controlsVisible gap).1) := by
  have hbody : verifyGapBody true controlsVisible gap =
      ([Action.print "STILL UNSUPPORTED",
        Action.screenshot "verification/unsupported_debug_2.png"], none) := rfl
  refine ⟨hbody, ?_, fun g => ?_, fun g => ?_⟩
  · rw [hbody]; decide
  · rw [hbody]
    simp [gapVerdict_ne_still g]
  · rw [hbody]
    simp
    exact append_ne_of_head_ne _ _ _ 'C' 'S' rfl rfl (by decide)

/-- Claim C10 witness: on a concrete unsupported run, exactly the two
diagnostic actions happen. -/
theorem C10_unsupported_early_return_witness :
    verifyGapBody true false "7px" =
      ([Action.print "STILL UNSUPPORTED",
        Action.screenshot "verification/unsupported_debug_2.png"], none) :=
  (C10_unsupported_early_return false "7px").1

/-- Claim C2: verify_stale samples `#warning` first after the 11 s sleep, then
after overriding `Date.now` by +65000 ms, then by +7201000 ms; whatever the
(nonnegative) real-time overheads `d1 d2 d3`, the simulated elapsed times are
strictly increasing, and as long as the run stays fast enough to keep the
first sample under a minute and the second under an hour, the three samples
land in the seconds, minutes and hours buckets in that order. -/
theorem C2_staleness_escalation (d1 d2 d3 : ℕ)
    (h1 : staleSleep1 + d1 < 60 * 1000)
    (h2 : staleSleep1 + d1 + staleSleep2 + d2 + staleOffset2 < 60 * 60 * 1000) :
    staleOffset2 = 65000 ∧ staleOffset3 = 7201000 ∧
    simulatedElapsed d1 d2 d3 0 < simulatedElapsed d1 d2 d3 1 ∧
    simulatedElapsed d1 d2 d3 1 < simulatedElapsed d1 d2 d3 2 ∧
    staleBucket (simulatedElapsed d1 d2 d3 0) = StaleBucket.seconds ∧
    staleBucket (simulatedElapsed d1 d2 d3 1) = StaleBucket.minutes ∧
    staleBucket (simulatedElapsed d1 d2 d3 2) = StaleBucket.hours := by
  simp only [staleSleep1, staleSleep2, staleOffset2, staleOffset3,
    simulatedElapsed, staleBucket] at h1 h2 ⊢
  refine ⟨trivial, trivial, by omega, by omega, ?_, ?_, ?_⟩ <;>
    split_ifs <;> first | rfl | omega

/-- Claim C2 witness: with zero overheads the three samples are strictly
increasing and land in the seconds, minutes and hours buckets. -/
theorem C2_staleness_escalation_witness :
    staleOffset2 = 65000 ∧ staleOffset3 = 7201000 ∧
    simulatedElapsed 0 0 0 0 < simulatedElapsed 0 0 0 1 ∧
    simulatedElapsed 0 0 0 1 < simulatedElapsed 0 0 0 2 ∧
    staleBucket (simulatedElapsed 0 0 0 0) = StaleBucket.seconds ∧
    staleBucket (simulatedElapsed 0 0 0 1) = StaleBucket.minutes ∧
    staleBucket (simulatedElapsed 0 0 0 2) = StaleBucket.hours :=
  C2_staleness_escalation 0 0 0 (by decide) (by decide)

/-- Claim C3: from any starting state, loading with cleared storage auto-shows
the popover; dismissing it persists the seen flag and hides it; the next load
no longer auto-shows; and once the seen flag is set it stays set through any
events other than a storage clear. -/
theorem C3_popover_first_run (s0 : AppState) :
    (appRun s0 [AppEvent.load, AppEvent.clearStorage, AppEvent.load]).popoverVisible
      = true ∧
    (appRun s0 [AppEvent.load, AppEvent.clearStorage, AppEvent.load,
        AppEvent.dismiss]).seen = true ∧
    (appRun s0 [AppEvent.load, AppEvent.clearStorage, AppEvent.load,
        AppEvent.dismiss]).popoverVisible = false ∧
    (appRun s0 [AppEvent.load, AppEvent.clearStorage, AppEvent.load,
        AppEvent.dismiss, AppEvent.load]).popoverVisible = false ∧
    (∀ evs : List AppEvent, AppEvent.clearStorage ∉ evs →
      ∀ s : AppState, s.seen = true → (appRun s evs).seen = true) := by
  refine ⟨rfl, rfl, rfl, rfl, fun evs => ?_⟩
  induction evs with
  | nil => exact fun _ _ hs => hs
  | cons e rest ih =>
    intro hni s hs
    have hrest : AppEvent.clearStorage ∉ rest := fun hmem => hni (List.mem_cons_of_mem e hmem)
    have he : e ≠ AppEvent.clearStorage := fun habs => hni (habs ▸ List.mem_cons_self e rest)
    show (appRun (appStep s e) rest).seen = true
    apply ih hrest
    cases e with
    | load => exact hs
    | dismiss => rfl
    | clearStorage => exact absurd rfl he

/-- Claim C3 witness: starting from a state with the flag already set and the
popover hidden, the scripted event sequence shows, dismisses and then no
longer auto-shows the popover, and a plain load keeps a set flag set. -/
theorem C3_popover_first_run_witness :
    (appRun ⟨true, false⟩ [AppEvent.load, AppEvent.clearStorage,
        AppEvent.load]).popoverVisible = true ∧
    (appRun ⟨true, false⟩ [AppEvent.load, AppEvent.clearStorage, AppEvent.load,
        AppEvent.dismiss, AppEvent.load]).popoverVisible = false ∧
    (appRun ⟨true, true⟩ [AppEvent.load]).seen = true :=
  ⟨(C3_popover_first_run ⟨true, false⟩).1,
   (C3_popover_first_run ⟨true, false⟩).2.2.2.1,
   (C3_popover_first_run ⟨true, false⟩).2.2.2.2 [AppEvent.load] (by decide)
     ⟨true, true⟩ rfl⟩

/-- Claim C4 fails as stated: verify_stale has no except clause at all (its
errors propagate with no screenshot and no debug print), and neither
repro_bug (no failure screenshot) nor verify_fix (re-raises after its
diagnostics) satisfies the claimed exceptional-path behaviour. -/
theorem C4_counterexample :
    handlesErrorWithDiagnostics Script.verify_stale = false ∧
    handlesErrorWithDiagnostics Script.repro_bug = false ∧
    handlesErrorWithDiagnostics Script.verify_fix = false ∧
    exceptClause Script.verify_stale = none :=
  ⟨rfl, rfl, rfl, rfl⟩

/-- Claim C4 (amended): among the seven scripts, exactly verify_gap and
verify_popover catch errors, take a failure screenshot, print debug state and
do not propagate; verify_fix prints and screenshots but re-raises; repro_bug
catches and prints with no screenshot; verify_landscape, screenshot_script
and verify_stale have no handler, so their errors propagate. -/
theorem C4_error_diagnostics :
    (∀ s : Script, handlesErrorWithDiagnostics s = true ↔
        (s = Script.verify_gap ∨ s = Script.verify_popover)) ∧
    Option.map ExceptClause.printsError (exceptClause Script.verify_fix) = some true ∧
    Option.map (fun c => c.screenshotPath.isSome) (exceptClause Script.verify_fix)
      = some true ∧
    Option.map ExceptClause.reraises (exceptClause Script.verify_fix) = some true ∧
    Option.map ExceptClause.printsError (exceptClause Script.repro_bug) = some true ∧
    Option.map ExceptClause.screenshotPath (exceptClause Script.repro_bug) = some none ∧
    Option.map ExceptClause.reraises (exceptClause Script.repro_bug) = some false ∧
    exceptClause Script.verify_stale = none ∧
    exceptClause Script.verify_landscape = none ∧
    exceptClause Script.screenshot_script = none := by
  refine ⟨fun s => ?_, rfl, rfl, rfl, rfl, rfl, rfl, rfl, rfl, rfl⟩
  cases s <;> decide

/-- Claim C4 (amended) witness: verify_gap does satisfy the full
catch-screenshot-print-no-propagate behaviour. -/
theorem C4_error_diagnostics_witness :
    handlesErrorWithDiagnostics Script.verify_gap = true :=
  (C4_error_diagnostics.1 Script.verify_gap).mpr (Or.inl rfl)

/-- Claim C6: after a click at any coordinate, the modelled handler leaves a
non-empty `--exit-x`, on which repro_bug prints its SUCCESS message; and the
script prints SUCCESS exactly on a non-empty post-click value and FAIL exactly
on an empty one. -/
theorem C6_exit_x (clickX : ℤ) :
    exitXAfterClick clickX ≠ "" ∧
    exitXVerdict (exitXAfterClick clickX) = "SUCCESS: --exit-x set after click." ∧
    (∀ v : String,
      (exitXVerdict v = "SUCCESS: --exit-x set after click." ↔ v ≠ "") ∧
      (exitXVerdict v = "FAIL: --exit-x not set after click!" ↔ v = "")) := by
  have hne : exitXAfterClick clickX ≠ "" := by
    intro h
    have hlen := congrArg String.length h
    rw [exitXAfterClick, String.length_append] at hlen
    have hpx : ("px" : String).length = 2 := rfl
    have hnil : ("" : String).length = 0 := rfl
    rw [hpx, hnil] at hlen
    omega
  refine ⟨hne, by rw [exitXVerdict, if_neg hne], fun v => ?_⟩
  by_cases hv : v = "" <;> simp [exitXVerdict, hv]

/-- Claim C6 witness: a click at x = 100 leaves `--exit-x` equal to `"100px"`,
and the script prints SUCCESS on it. -/
theorem C6_exit_x_witness :
    exitXVerdict (exitXAfterClick 100) = "SUCCESS: --exit-x set after click." :=
  (C6_exit_x 100).2.1

/-- Claim C8 fails as stated: repro_bug (like the other four scripts) creates
its context and page between `browser.launch()` and the `try`, and on the path
where such a statement raises, the `finally` is never reached and the browser
is not closed. -/
theorem C8_counterexample :
    (cleanupShape Script.repro_bug).stmtsBeforeTry = true ∧
    browserClosed Script.repro_bug RunPath.raiseBeforeTry = false :=
  ⟨rfl, rfl⟩

/-- Claim C8 (amended): in each of repro_bug, verify_popover, verify_stale,
verify_fix and verify_gap, `browser.close()` sits in a `finally` covering the
script's `try` body, so the browser is closed on normal completion and
whenever the body raises; but every one of them has statements between the
launch and the `try`, and an exception there skips the close. -/
theorem C8_browser_close (s : Script)
    (h : s = Script.repro_bug ∨ s = Script.verify_popover ∨
         s = Script.verify_stale ∨ s = Script.verify_fix ∨ s = Script.verify_gap) :
    browserClosed s RunPath.normal = true ∧
    browserClosed s RunPath.raiseInTry = true ∧
    (cleanupShape s).stmtsBeforeTry = true ∧
    browserClosed s RunPath.raiseBeforeTry = false := by
  rcases h with h | h | h | h | h <;> subst h <;> exact ⟨rfl, rfl, rfl, rfl⟩

/-- Claim C8 (amended) witness: verify_stale closes the browser on normal
completion and on an exception in its `try` body, but not on one raised during
its pre-`try` setup. -/
theorem C8_browser_close_witness :
    browserClosed Script.verify_stale RunPath.normal = true ∧
    browserClosed Script.verify_stale RunPath.raiseInTry = true ∧
    (cleanupShape Script.verify_stale).stmtsBeforeTry = true ∧
    browserClosed Script.verify_stale RunPath.raiseBeforeTry = false :=
  C8_browser_close Script.verify_stale (Or.inr (Or.inr (Or.inl rfl)))

end Speedometer
